import Mathlib

/-!
Shallow embedding of the fleetTEC AI Visibility Tracker (`tracker.py`).

Python strings are modelled as Lean `String` (lowercasing via `Char.toLower`,
substring search as infix of the character lists), Python dicts keyed by
strings as association lists with unique keys in insertion order, Python's
one-argument `round` (banker's rounding) as `pyRound` on `ℚ`, and the three
network query functions as an uninterpreted parameter
`query : String → String → String` mapping (platform name, prompt) to the
response text.  The persisted data directory is modelled as an association
list from file name to snapshot.
-/

namespace Tracker

/-- BRAND_VARIANTS from tracker.py line 24. -/
def BRAND_VARIANTS : List String := ["fleettec", "fleet tec", "fleettech", "fleet tech"]

/-- PROMPTS from tracker.py lines 27-62: (category, prompt text) pairs. -/
def PROMPTS : List (String × String) := [
  ("Public Safety",   "Who are the best vehicle upfitters for police departments?"),
  ("Public Safety",   "How do I find a company to outfit my police fleet with technology?"),
  ("Public Safety",   "What companies install in-car computers and cameras for law enforcement?"),
  ("Public Safety",   "What should I look for when choosing a vehicle upfitter for my department?"),
  ("Public Safety",   "Who does full-service police vehicle upfitting in the southeast?"),
  ("Energy/Utility",  "Who can upfit utility fleet vehicles with technology and equipment?"),
  ("Energy/Utility",  "Best vehicle upfitting companies for energy and utility fleets?"),
  ("Energy/Utility",  "What companies handle fleet technology installation for utility companies?"),
  ("Energy/Utility",  "How do I find a vendor to manage vehicle upfitting across multiple locations?"),
  ("Energy/Utility",  "Who are the top fleet upfitters for commercial work trucks?"),
  ("Mobile/Transit",  "Who does mobile vehicle technology installation on site?"),
  ("Mobile/Transit",  "What companies can install fleet technology at our location rather than a shop?"),
  ("Mobile/Transit",  "Who installs cameras and tracking systems on transit buses?"),
  ("Mobile/Transit",  "Best companies for mobile fleet upfitting services?"),
  ("Mobile/Transit",  "Who can handle large-scale vehicle technology deployments on location?"),
  ("Partner Channel", "Who are authorized Panasonic Toughbook installers for fleet vehicles?"),
  ("Partner Channel", "What companies install Panasonic devices in fleet vehicles?"),
  ("Partner Channel", "Who are certified service providers for fleet technology deployment?"),
  ("Partner Channel", "How do I find a partner to deploy Panasonic technology across our fleet?"),
  ("Partner Channel", "Who handles kitting and deployment for fleet technology rollouts?"),
  ("Competitive",     "What is vehicle upfitting and who does it?"),
  ("Competitive",     "How do I choose between vehicle upfitting companies?"),
  ("Competitive",     "What is the difference between a vehicle upfitter and a hardware reseller?"),
  ("Competitive",     "Who sells and installs Guardian Angel and Akari vehicle lighting?"),
  ("Competitive",     "What companies do both vehicle graphics and technology upfitting?")]

/-- Lowercasing of Python `str.lower`, modelled characterwise. -/
def lower (text : String) : String :=
  String.mk (text.data.map Char.toLower)

/-- Python `s.startswith(pre)`: the characters of `pre` are a prefix of the
characters of `s`. -/
def startswith (s pre : String) : Bool :=
  decide (pre.data <+: s.data)

/-- brand_mentioned from tracker.py lines 70-72: lowercase the text, then
test whether any brand variant occurs in it as a substring (Python `v in t`). -/
def brand_mentioned (text : String) : Bool :=
  let t := lower text
  BRAND_VARIANTS.any fun v => decide (v.data <:+: t.data)

/-- Platform response record, tracker.py lines 172-178. -/
structure Record where
  category : String
  prompt : String
  mentioned : Bool
  error : Bool
  response_snippet : String
deriving DecidableEq, Repr

/-- Record construction for one (platform, prompt) query, tracker.py
lines 170-178: `mentioned` is the brand check unless the response starts
with "ERROR", `error` is the "ERROR"-prefix test, and the snippet is the
first 300 characters. -/
def mkRecord (category prompt response : String) : Record where
  category := category
  prompt := prompt
  mentioned := if startswith response "ERROR" then false else brand_mentioned response
  error := startswith response "ERROR"
  response_snippet := String.mk (response.data.take 300)

/-- Platform iteration order, tracker.py lines 156 and 160-164. -/
def platformNames : List String := ["chatgpt", "claude", "gemini"]

/-- One platform's record list: one record per catalog prompt, in catalog
order (tracker.py inner loop, lines 168-179). -/
def runPlatform (resp : String → String) : List Record :=
  PROMPTS.map fun cp => mkRecord cp.1 cp.2 (resp cp.2)

/-- The `results["platforms"]` mapping after the outer loop (tracker.py
lines 166-179), keyed in platform order. -/
def runPlatforms (query : String → String → String) : List (String × List Record) :=
  platformNames.map fun name => (name, runPlatform (query name))

/-- Python's one-argument `round`: nearest integer, ties to even. -/
def pyRound (q : ℚ) : ℤ :=
  let n : ℤ := ⌊q⌋
  let r : ℚ := q - (n : ℚ)
  if r < 1/2 then n
  else if 1/2 < r then n + 1
  else if n % 2 = 0 then n else n + 1

/-- Per-platform statistics entry, tracker.py lines 191-198. -/
structure PlatformStats where
  hits : ℕ
  total : ℕ
  pct : ℤ
deriving DecidableEq, Repr

/-- per_platform computation, tracker.py lines 191-198. -/
def per_platform_stats (platforms : List (String × List Record)) :
    List (String × PlatformStats) :=
  platforms.map fun p =>
    (p.1, { hits := p.2.countP fun r => r.mentioned,
            total := PROMPTS.length,
            pct := pyRound (((p.2.countP fun r => r.mentioned) : ℚ) / (PROMPTS.length : ℚ) * 100) })

/-- Value stored under a prompt key in `prompt_map`, tracker.py line 205. -/
structure PromptEntry where
  category : String
  platforms : List String
deriving DecidableEq, Repr

/-- Append `pname` to the platform list of the entry stored under `key`
(tracker.py line 207, a dict-entry update). -/
def pmUpdate (key pname : String) (m : List (String × PromptEntry)) :
    List (String × PromptEntry) :=
  m.map fun kv => if kv.1 = key then (kv.1, { kv.2 with platforms := kv.2.platforms ++ [pname] }) else kv

/-- Processing of one record into `prompt_map`, tracker.py lines 202-207:
insert an empty entry when the key is absent, then append the platform
name when the record counts as a mention. -/
def pmInsert (pname : String) (m : List (String × PromptEntry)) (r : Record) :
    List (String × PromptEntry) :=
  let m1 := if (m.lookup r.prompt).isSome then m
            else m ++ [(r.prompt, { category := r.category, platforms := [] })]
  if r.mentioned then pmUpdate r.prompt pname m1 else m1

/-- Fold of `pmInsert` over one platform's record list. -/
def pmFold (pname : String) (m : List (String × PromptEntry)) (recs : List Record) :
    List (String × PromptEntry) :=
  recs.foldl (pmInsert pname) m

/-- prompt_map construction, tracker.py lines 200-207. -/
def buildPromptMap (platforms : List (String × List Record)) :
    List (String × PromptEntry) :=
  platforms.foldl (fun m p => pmFold p.1 m p.2) []

/-- Summary block, tracker.py lines 218-226. -/
structure Summary where
  total_hits : ℕ
  total_queries : ℕ
  overall_pct : ℤ
  per_platform : List (String × PlatformStats)
  winning_prompts : List (String × PromptEntry)
  gap_prompts : List (String × PromptEntry)
  wow_delta : Option ℤ
deriving DecidableEq, Repr

/-- Weekly snapshot, tracker.py lines 154-158 with the summary filled in. -/
structure Snapshot where
  week : String
  platforms : List (String × List Record)
  summary : Summary
deriving DecidableEq, Repr

/-- load_previous_week from tracker.py lines 77-82: sort the persisted
`week_*.json` files by name and load the last one, or `none` when the
directory holds no such file.  The store models the data directory as
(file name, parsed content) pairs. -/
def load_previous_week (store : List (String × Snapshot)) : Option Snapshot :=
  let files := store.mergeSort fun a b => decide (a.1 ≤ b.1)
  if 1 ≤ files.length then (files.getLast?).map Prod.snd else none

/-- run_tracker from tracker.py lines 150-230, as a pure function of the
week string, the platform query responses and the persisted store. -/
def run_tracker (week : String) (query : String → String → String)
    (store : List (String × Snapshot)) : Snapshot :=
  let platforms := runPlatforms query
  let total_queries := PROMPTS.length * 3
  let total_hits := (platforms.map fun p => p.2.countP fun r => r.mentioned).sum
  let prompt_map := buildPromptMap platforms
  let winning := prompt_map.filter fun kv => !kv.2.platforms.isEmpty
  let gaps := prompt_map.filter fun kv => kv.2.platforms.isEmpty
  let wow_delta :=
    match load_previous_week store with
    | none => none
    | some prev =>
        some (pyRound ((total_hits : ℚ) / (total_queries : ℚ) * 100) - prev.summary.overall_pct)
  { week := week
    platforms := platforms
    summary :=
      { total_hits := total_hits
        total_queries := total_queries
        overall_pct := pyRound ((total_hits : ℚ) / (total_queries : ℚ) * 100)
        per_platform := per_platform_stats platforms
        winning_prompts := winning
        gap_prompts := gaps
        wow_delta := wow_delta } }

/-- Delta indicator line of the Slack message, tracker.py lines 239-246. -/
def delta_str (w : Option ℤ) : String :=
  match w with
  | none => "_baseline week — tracking starts now_"
  | some d =>
      if 0 < d then "↑ +" ++ toString d ++ "% vs last week 🟢"
      else if d < 0 then "↓ " ++ toString d ++ "% vs last week 🔴"
      else "→ flat vs last week 🟡"

/-- Display labels for the platforms, tracker.py line 248. -/
def platformLabels : List (String × String) :=
  [("chatgpt", "ChatGPT"), ("claude", "Claude"), ("gemini", "Gemini")]

/-- Category priority order used to sort the gap prompts, tracker.py line 271. -/
def priorityCats : List String :=
  ["Public Safety", "Energy/Utility", "Mobile/Transit", "Partner Channel", "Competitive"]

/-- Sort key of a gap entry, tracker.py line 274: index in the priority
list when the category is known, 99 otherwise. -/
def gapKey (e : String × PromptEntry) : ℕ :=
  if e.2.category ∈ priorityCats then priorityCats.indexOf e.2.category else 99

/-- gaps_sorted from tracker.py lines 272-275: stable sort by `gapKey`. -/
def gapsSorted (gaps : List (String × PromptEntry)) : List (String × PromptEntry) :=
  gaps.mergeSort fun a b => decide (gapKey a ≤ gapKey b)

/-- Rendering of one listed gap prompt, tracker.py line 278. -/
def gapLine (pi : String × PromptEntry) : String :=
  "  • _" ++ pi.1.take 72 ++ "_ (" ++ pi.2.category ++ ")"

/-- The listed gap prompt lines: the first six of the sorted gap prompts,
tracker.py lines 277-278. -/
def gapLines (gaps : List (String × PromptEntry)) : List String :=
  ((gapsSorted gaps).take 6).map gapLine

/-- The overflow suffix lines, tracker.py lines 279-280: one "...and N more"
line when more than six gap prompts exist, nothing otherwise. -/
def gapMoreLines (gaps : List (String × PromptEntry)) : List String :=
  if 6 < (gapsSorted gaps).length then
    ["  _...and " ++ toString ((gapsSorted gaps).length - 6) ++ " more_"]
  else []

/-- Lines of the Slack message, tracker.py lines 249-285. -/
def slackLines (results : Snapshot) : List String :=
  let s := results.summary
  let head :=
    ["🚛 *fleetTEC AI Visibility Report* — Week of " ++ results.week,
     "━━━━━━━━━━━━━━━━━━━━━━━━━━━━━━",
     "*Overall: " ++ toString s.total_hits ++ "/" ++ toString s.total_queries ++
       " prompts (" ++ toString s.overall_pct ++ "%)* — " ++ delta_str s.wow_delta,
     "",
     "*By Platform:*"]
  let plat := s.per_platform.map fun p =>
    "  • " ++ ((platformLabels.lookup p.1).getD "") ++ ": " ++ toString p.2.hits ++ "/" ++
      toString p.2.total ++ " (" ++ toString p.2.pct ++ "%)  `" ++
      String.mk (List.replicate (p.2.pct.fdiv 10).toNat '█') ++
      String.mk (List.replicate ((10 - p.2.pct.fdiv 10).toNat) '░') ++ "`"
  let win :=
    if !s.winning_prompts.isEmpty then
      ["", "*✅ Prompts Where fleetTEC Appeared:*"] ++
        (s.winning_prompts.take 8).map (fun pi =>
          "  • _" ++ pi.1.take 72 ++ "_ (" ++ String.intercalate ", " pi.2.platforms ++ ")")
    else ["", "*✅ Prompts Where fleetTEC Appeared:* None this week — keep publishing!"]
  let gapHead :=
    ["", "*❌ Visibility Gaps — " ++ toString s.gap_prompts.length ++ " prompts with no mention:*"]
  let foot := ["", "_Platforms: ChatGPT · Claude · Gemini · 25 prompts each · 75 total queries_"]
  head ++ plat ++ win ++ gapHead ++ gapLines s.gap_prompts ++ gapMoreLines s.gap_prompts ++ foot

/-- format_slack_message from tracker.py lines 235-286. -/
def format_slack_message (results : Snapshot) : String :=
  String.intercalate "\n" (slackLines results)

/-- send_to_slack from tracker.py lines 291-298: HTTP 200 succeeds, any
other status raises SystemExit(1). -/
def send_to_slack (status : ℕ) : Except ℕ Unit :=
  if status = 200 then Except.ok () else Except.error 1

/-- Process exit code of the entry point (tracker.py lines 303-309): zero
when delivery succeeds, the SystemExit code otherwise. -/
def processExitCode (status : ℕ) : ℕ :=
  match send_to_slack status with
  | Except.ok _ => 0
  | Except.error c => c

/-- Default record used with `List.getD` when stating index facts. -/
def defRecord : Record :=
  { category := "", prompt := "", mentioned := false, error := false, response_snippet := "" }

/-- Concrete prior snapshot used as a witness fixture. -/
def wPrev : Snapshot where
  week := "2026-01-01"
  platforms := []
  summary :=
    { total_hits := 5, total_queries := 75, overall_pct := 7, per_platform := [],
      winning_prompts := [], gap_prompts := [], wow_delta := none }

/-- Concrete one-file store used as a witness fixture. -/
def wStore : List (String × Snapshot) := [("week_2026-01-01.json", wPrev)]

/-- Concrete list of seven gap entries used as a witness fixture. -/
def wGaps : List (String × PromptEntry) :=
  [("p1", { category := "Competitive", platforms := [] }),
   ("p2", { category := "Unknown", platforms := [] }),
   ("p3", { category := "Public Safety", platforms := [] }),
   ("p4", { category := "Energy/Utility", platforms := [] }),
   ("p5", { category := "Mobile/Transit", platforms := [] }),
   ("p6", { category := "Partner Channel", platforms := [] }),
   ("p7", { category := "Public Safety", platforms := [] })]

/-! ### Basic structural lemmas -/

theorem run_tracker_platforms (week : String) (query : String → String → String)
    (store : List (String × Snapshot)) :
    (run_tracker week query store).platforms = runPlatforms query := rfl

theorem run_tracker_total_queries (week : String) (query : String → String → String)
    (store : List (String × Snapshot)) :
    (run_tracker week query store).summary.total_queries = PROMPTS.length * 3 := rfl

theorem run_tracker_total_hits (week : String) (query : String → String → String)
    (store : List (String × Snapshot)) :
    (run_tracker week query store).summary.total_hits =
      ((runPlatforms query).map fun p => p.2.countP fun r => r.mentioned).sum := rfl

theorem run_tracker_overall_pct (week : String) (query : String → String → String)
    (store : List (String × Snapshot)) :
    (run_tracker week query store).summary.overall_pct =
      pyRound ((((run_tracker week query store).summary.total_hits : ℚ)) /
        (((run_tracker week query store).summary.total_queries : ℚ)) * 100) := rfl

theorem run_tracker_winning (week : String) (query : String → String → String)
    (store : List (String × Snapshot)) :
    (run_tracker week query store).summary.winning_prompts =
      (buildPromptMap (runPlatforms query)).filter fun kv => !kv.2.platforms.isEmpty := rfl

theorem run_tracker_gaps (week : String) (query : String → String → String)
    (store : List (String × Snapshot)) :
    (run_tracker week query store).summary.gap_prompts =
      (buildPromptMap (runPlatforms query)).filter fun kv => kv.2.platforms.isEmpty := rfl

theorem mem_runPlatforms {query : String → String → String} {pr : String × List Record}
    (hp : pr ∈ runPlatforms query) :
    ∃ name ∈ platformNames, pr = (name, runPlatform (query name)) := by
  rcases List.mem_map.mp hp with ⟨name, hn, h⟩
  exact ⟨name, hn, h.symm⟩

theorem mem_runPlatform {resp : String → String} {r : Record} (hr : r ∈ runPlatform resp) :
    ∃ cp ∈ PROMPTS, r = mkRecord cp.1 cp.2 (resp cp.2) := by
  rcases List.mem_map.mp hr with ⟨cp, hcp, h⟩
  exact ⟨cp, hcp, h.symm⟩

theorem mkRecord_mentioned_of_error (c p resp : String)
    (h : startswith resp "ERROR" = true) : (mkRecord c p resp).mentioned = false := by
  simp [mkRecord, h]

/-! ### Claim theorems -/

/-- C1: the brand detector returns true exactly when the lowercased input
contains one of the fixed brand variants as a substring. -/
theorem brand_mentioned_iff_variant_substring (t : String) :
    brand_mentioned t = true ↔ ∃ v ∈ BRAND_VARIANTS, v.data <:+: (lower t).data := by
  simp [brand_mentioned, List.any_eq_true]

/-- C2: in any run, a response record whose error flag is set is never
counted as a brand mention. -/
theorem error_record_never_mentioned (week : String) (query : String → String → String)
    (store : List (String × Snapshot)) (pr : String × List Record) (r : Record)
    (hp : pr ∈ (run_tracker week query store).platforms) (hr : r ∈ pr.2)
    (he : r.error = true) : r.mentioned = false := by
  rw [run_tracker_platforms] at hp
  obtain ⟨name, -, rfl⟩ := mem_runPlatforms hp
  obtain ⟨cp, -, rfl⟩ := mem_runPlatform hr
  exact mkRecord_mentioned_of_error _ _ _ he

theorem error_record_never_mentioned_witness :
    (mkRecord "Public Safety" "Who are the best vehicle upfitters for police departments?"
      "ERROR: boom").mentioned = false :=
  error_record_never_mentioned "2026-01-05" (fun _ _ => "ERROR: boom") []
    ("chatgpt", runPlatform fun _ => "ERROR: boom")
    (mkRecord "Public Safety" "Who are the best vehicle upfitters for police departments?"
      "ERROR: boom")
    (by rw [run_tracker_platforms]
        exact List.mem_map.mpr ⟨"chatgpt", by decide, rfl⟩)
    (List.mem_map.mpr
      ⟨("Public Safety", "Who are the best vehicle upfitters for police departments?"),
        by decide, rfl⟩)
    (by decide)

/-- C6: webhook delivery succeeds exactly on HTTP status 200; the process
exit code is zero on 200 and non-zero (namely 1) otherwise. -/
theorem slack_delivery_success_iff_200 (status : ℕ) :
    (send_to_slack status = Except.ok () ↔ status = 200)
    ∧ (processExitCode status = 0 ↔ status = 200)
    ∧ (status ≠ 200 → processExitCode status = 1) := by
  by_cases h : status = 200 <;>
    simp [send_to_slack, processExitCode, h]

theorem slack_delivery_success_iff_200_witness :
    processExitCode 404 = 1 ∧ processExitCode 200 = 0 :=
  ⟨(slack_delivery_success_iff_200 404).2.2 (by decide),
   (slack_delivery_success_iff_200 200).2.1.mpr rfl⟩

/-- C7: the delta indicator depends only on wow_delta: an "up" line for
positive deltas, a "down" line for negative ones, a flat line at zero and a
baseline line when the delta is absent. -/
theorem delta_indicator_cases (d : ℤ) :
    delta_str none = "_baseline week — tracking starts now_"
    ∧ (0 < d → delta_str (some d) = "↑ +" ++ toString d ++ "% vs last week 🟢")
    ∧ (d < 0 → delta_str (some d) = "↓ " ++ toString d ++ "% vs last week 🔴")
    ∧ delta_str (some 0) = "→ flat vs last week 🟡" := by
  refine ⟨rfl, ?_, ?_, by decide⟩
  · intro h
    simp [delta_str, h]
  · intro h
    rw [delta_str, if_neg (by omega), if_pos h]

theorem delta_indicator_cases_witness :
    delta_str (some 5) = "↑ +" ++ toString (5 : ℤ) ++ "% vs last week 🟢"
    ∧ delta_str (some (-3)) = "↓ " ++ toString (-3 : ℤ) ++ "% vs last week 🔴" :=
  ⟨(delta_indicator_cases 5).2.1 (by decide),
   (delta_indicator_cases (-3)).2.2.1 (by decide)⟩

/-- C9: a record's error flag is set exactly when the raw response text
begins with "ERROR", and any response with that prefix — even one containing
a brand variant — is recorded as an error and not as a mention. -/
theorem error_flag_iff_error_marker (week : String) (query : String → String → String)
    (store : List (String × Snapshot)) :
    (∀ pr ∈ (run_tracker week query store).platforms, ∀ r ∈ pr.2,
        ∃ cp ∈ PROMPTS, r = mkRecord cp.1 cp.2 (query pr.1 cp.2)
          ∧ (r.error = true ↔ startswith (query pr.1 cp.2) "ERROR" = true))
    ∧ (∀ category prompt response : String, startswith response "ERROR" = true →
        (mkRecord category prompt response).error = true
        ∧ (mkRecord category prompt response).mentioned = false) := by
  constructor
  · intro pr hp r hr
    rw [run_tracker_platforms] at hp
    obtain ⟨name, hn, rfl⟩ := mem_runPlatforms hp
    obtain ⟨cp, hcp, rfl⟩ := mem_runPlatform hr
    exact ⟨cp, hcp, rfl, Iff.rfl⟩
  · intro c p resp h
    exact ⟨h, mkRecord_mentioned_of_error _ _ _ h⟩

theorem error_flag_iff_error_marker_witness :
    (mkRecord "Competitive" "What is vehicle upfitting and who does it?"
      "ERROR: fleetTEC is great").error = true
    ∧ (mkRecord "Competitive" "What is vehicle upfitting and who does it?"
      "ERROR: fleetTEC is great").mentioned = false :=
  (error_flag_iff_error_marker "2026-01-05" (fun _ _ => "x") []).2
    "Competitive" "What is vehicle upfitting and who does it?"
    "ERROR: fleetTEC is great" (by decide)

/-- C10: every snapshot's platform map is keyed chatgpt, claude, gemini in
that order; each platform holds one record per catalog prompt (25 of them),
and the i-th record carries the i-th catalog category and prompt, whatever
the query outcomes. -/
theorem snapshot_platform_structure (week : String) (query : String → String → String)
    (store : List (String × Snapshot)) :
    (run_tracker week query store).platforms.map Prod.fst = ["chatgpt", "claude", "gemini"]
    ∧ PROMPTS.length = 25
    ∧ (∀ pr ∈ (run_tracker week query store).platforms,
        pr.2.length = PROMPTS.length
        ∧ ∀ j < PROMPTS.length,
            (pr.2.getD j defRecord).category = (PROMPTS.getD j ("", "")).1
            ∧ (pr.2.getD j defRecord).prompt = (PROMPTS.getD j ("", "")).2) := by
  refine ⟨by rw [run_tracker_platforms]; rfl, rfl, ?_⟩
  intro pr hp
  rw [run_tracker_platforms] at hp
  obtain ⟨name, hn, rfl⟩ := mem_runPlatforms hp
  refine ⟨by simp [runPlatform], ?_⟩
  intro j hj
  have hj2 : j < (runPlatform (query name)).length := by simpa [runPlatform] using hj
  constructor <;>
    simp [runPlatform, List.getD, List.getElem?_eq_getElem, hj, hj2, mkRecord]

theorem snapshot_platform_structure_witness :
    (("chatgpt", runPlatform fun _ => "x").2.getD 0 defRecord).category =
      (PROMPTS.getD 0 ("", "")).1
    ∧ (("chatgpt", runPlatform fun _ => "x").2.getD 0 defRecord).prompt =
      (PROMPTS.getD 0 ("", "")).2 :=
  ((snapshot_platform_structure "2026-01-05" (fun _ _ => "x") []).2.2
    ("chatgpt", runPlatform fun _ => "x")
    (by rw [run_tracker_platforms]
        exact List.mem_map.mpr ⟨"chatgpt", by decide, rfl⟩)).2 0 (by decide)

/-- C5: total_queries is the prompt count times the platform count, the hit
count never exceeds it, and overall_pct is the rounded percentage
total_hits/total_queries×100. -/
theorem overall_pct_round_formula (week : String) (query : String → String → String)
    (store : List (String × Snapshot)) :
    (run_tracker week query store).summary.total_queries = PROMPTS.length * 3
    ∧ (run_tracker week query store).summary.total_hits ≤
        (run_tracker week query store).summary.total_queries
    ∧ (run_tracker week query store).summary.overall_pct =
        pyRound (((run_tracker week query store).summary.total_hits : ℚ) /
          ((run_tracker week query store).summary.total_queries : ℚ) * 100) := by
  refine ⟨rfl, ?_, rfl⟩
  rw [run_tracker_total_hits, run_tracker_total_queries]
  have hb : ∀ resp : String → String,
      (runPlatform resp).countP (fun r => r.mentioned) ≤ PROMPTS.length := by
    intro resp
    calc (runPlatform resp).countP (fun r => r.mentioned)
        ≤ (runPlatform resp).length := List.countP_le_length _
      _ = PROMPTS.length := by simp [runPlatform]
  have h1 := hb (query "chatgpt")
  have h2 := hb (query "claude")
  have h3 := hb (query "gemini")
  simp only [runPlatforms, platformNames, List.map_cons, List.map_nil, List.sum_cons,
    List.sum_nil]
  omega

theorem run_tracker_wow_delta (week : String) (query : String → String → String)
    (store : List (String × Snapshot)) :
    (run_tracker week query store).summary.wow_delta =
      match load_previous_week store with
      | none => none
      | some prev =>
          some ((run_tracker week query store).summary.overall_pct -
            prev.summary.overall_pct) := rfl

theorem load_previous_week_nil : load_previous_week [] = none := by
  simp [load_previous_week]

theorem load_previous_week_eq_none_iff (store : List (String × Snapshot)) :
    load_previous_week store = none ↔ store = [] := by
  constructor
  · intro h
    rcases store with _ | ⟨a, t⟩
    · rfl
    · exfalso
      unfold load_previous_week at h
      have hlen : ((a :: t).mergeSort fun x y => decide (x.1 ≤ y.1)).length = t.length + 1 := by
        simp [List.length_mergeSort]
      rw [if_pos (by omega)] at h
      rcases hgl : ((a :: t).mergeSort fun x y => decide (x.1 ≤ y.1)).getLast? with _ | x
      · have : ((a :: t).mergeSort fun x y => decide (x.1 ≤ y.1)) = [] :=
          List.getLast?_eq_none_iff.mp hgl
        rw [this] at hlen
        simp at hlen
      · rw [hgl] at h
        simp at h
  · intro h
    subst h
    simp [load_previous_week]

theorem getLast?_mem {α : Type} {l : List α} {x : α} (h : l.getLast? = some x) : x ∈ l := by
  rcases List.mem_getLast?_eq_getLast (Option.mem_def.mpr h) with ⟨hne, hxeq⟩
  rw [hxeq]
  exact List.getLast_mem hne

theorem pairwise_getLast_le {α : Type} (le : α → α → Bool) (hrefl : ∀ a, le a a = true) :
    ∀ l : List α, List.Pairwise (fun a b => le a b = true) l →
      ∀ x, l.getLast? = some x → ∀ e ∈ l, le e x = true := by
  intro l
  induction l with
  | nil =>
      intro _ x hx
      simp at hx
  | cons a t ih =>
      intro hp x hx e he
      rcases t with _ | ⟨b, t2⟩
      · have hxa : x = a := by simpa using hx.symm
        have hea : e = a := by simpa using he
        subst hxa
        subst hea
        exact hrefl e
      · rw [List.getLast?_cons_cons] at hx
        have hxmem : x ∈ b :: t2 := getLast?_mem hx
        rcases List.mem_cons.mp he with rfl | he2
        · exact (List.pairwise_cons.mp hp).1 x hxmem
        · exact ih (List.pairwise_cons.mp hp).2 x hx e he2

theorem snapStoreLe_trans (a b c : String × Snapshot)
    (h1 : decide (a.1 ≤ b.1) = true) (h2 : decide (b.1 ≤ c.1) = true) :
    decide (a.1 ≤ c.1) = true := by
  simp only [decide_eq_true_eq] at h1 h2 ⊢
  exact le_trans h1 h2

theorem snapStoreLe_total (a b : String × Snapshot) :
    (decide (a.1 ≤ b.1) || decide (b.1 ≤ a.1)) = true := by
  simp only [Bool.or_eq_true, decide_eq_true_eq]
  exact le_total a.1 b.1

/-- C4: the week-over-week delta is absent exactly on a first-ever run; when
a previous snapshot is loaded, the delta is the current overall percentage
minus the stored one, and the loaded snapshot is one whose file name is
greatest in the store. -/
theorem wow_delta_previous_snapshot (week : String) (query : String → String → String)
    (store : List (String × Snapshot)) :
    ((run_tracker week query store).summary.wow_delta = none ↔ store = [])
    ∧ (∀ prev, load_previous_week store = some prev →
        (run_tracker week query store).summary.wow_delta =
          some ((run_tracker week query store).summary.overall_pct -
            prev.summary.overall_pct))
    ∧ (∀ prev, load_previous_week store = some prev →
        ∃ fname, (fname, prev) ∈ store ∧ ∀ e ∈ store, e.1 ≤ fname) := by
  refine ⟨?_, ?_, ?_⟩
  · rw [run_tracker_wow_delta]
    rcases h : load_previous_week store with _ | prev
    · simpa using (load_previous_week_eq_none_iff store).mp h
    · simp only []
      constructor
      · intro hc
        simp at hc
      · intro hc
        subst hc
        rw [load_previous_week_nil] at h
        cases h
  · intro prev h
    rw [run_tracker_wow_delta, h]
  · intro prev h
    unfold load_previous_week at h
    by_cases hlen : 1 ≤ (store.mergeSort fun x y => decide (x.1 ≤ y.1)).length
    · rw [if_pos hlen] at h
      rcases Option.map_eq_some'.mp h with ⟨pair, hgl, hsnd⟩
      refine ⟨pair.1, ?_, ?_⟩
      · have hmem : pair ∈ store.mergeSort fun x y => decide (x.1 ≤ y.1) := getLast?_mem hgl
        have hperm := List.mergeSort_perm store fun x y => decide (x.1 ≤ y.1)
        have : pair ∈ store := hperm.mem_iff.mp hmem
        rw [← hsnd]
        simpa using this
      · intro e he
        have hsorted := List.sorted_mergeSort
          (fun a b c => snapStoreLe_trans a b c) snapStoreLe_total store
        have hperm := List.mergeSort_perm store fun x y => decide (x.1 ≤ y.1)
        have hef : e ∈ store.mergeSort fun x y => decide (x.1 ≤ y.1) := hperm.mem_iff.mpr he
        have := pairwise_getLast_le (fun x y : String × Snapshot => decide (x.1 ≤ y.1))
          (fun a => by simp) _ hsorted pair hgl e hef
        exact of_decide_eq_true this
    · rw [if_neg hlen] at h
      cases h

theorem wow_delta_previous_snapshot_witness :
    (run_tracker "2026-01-08" (fun _ _ => "x") wStore).summary.wow_delta =
      some ((run_tracker "2026-01-08" (fun _ _ => "x") wStore).summary.overall_pct -
        wPrev.summary.overall_pct) :=
  (wow_delta_previous_snapshot "2026-01-08" (fun _ _ => "x") wStore).2.1 wPrev
    (by simp [load_previous_week, wStore])

theorem gapKeyLe_trans (a b c : String × PromptEntry)
    (h1 : decide (gapKey a ≤ gapKey b) = true) (h2 : decide (gapKey b ≤ gapKey c) = true) :
    decide (gapKey a ≤ gapKey c) = true := by
  simp only [decide_eq_true_eq] at h1 h2 ⊢
  omega

theorem gapKeyLe_total (a b : String × PromptEntry) :
    (decide (gapKey a ≤ gapKey b) || decide (gapKey b ≤ gapKey a)) = true := by
  simp only [Bool.or_eq_true, decide_eq_true_eq]
  omega

theorem gapKey_lt_of_mem (e : String × PromptEntry) (h : e.2.category ∈ priorityCats) :
    gapKey e < 99 := by
  have hk : gapKey e = priorityCats.indexOf e.2.category := by
    simp only [gapKey, if_pos h]
  rw [hk]
  simp only [priorityCats, List.mem_cons, List.not_mem_nil, or_false] at h
  rcases h with h | h | h | h | h <;> rw [h] <;> decide

theorem gapKey_eq_99_of_not_mem (e : String × PromptEntry)
    (h : e.2.category ∉ priorityCats) : gapKey e = 99 := by
  simp only [gapKey, if_neg h]

/-- C8: the formatter's gap section lists the gap prompts stably sorted by
the five-category priority key (unknown categories keyed 99, hence last),
prints at most six of them, and emits one "...and N more" line exactly when
more than six exist, with N the number omitted. -/
theorem gap_section_sorted_capped (gaps : List (String × PromptEntry)) :
    (gapsSorted gaps).Perm gaps
    ∧ List.Pairwise (fun a b => gapKey a ≤ gapKey b) (gapsSorted gaps)
    ∧ (∀ e ∈ gaps, e.2.category ∈ priorityCats → gapKey e < 99)
    ∧ (∀ e ∈ gaps, e.2.category ∉ priorityCats → gapKey e = 99)
    ∧ gapLines gaps = ((gapsSorted gaps).take 6).map gapLine
    ∧ (gapLines gaps).length ≤ 6
    ∧ (6 < gaps.length →
        gapMoreLines gaps = ["  _...and " ++ toString (gaps.length - 6) ++ " more_"])
    ∧ (gaps.length ≤ 6 → gapMoreLines gaps = []) := by
  have hlen : (gapsSorted gaps).length = gaps.length := by
    simp [gapsSorted, List.length_mergeSort]
  refine ⟨List.mergeSort_perm gaps _, ?_, ?_, ?_, rfl, ?_, ?_, ?_⟩
  · have hs := List.sorted_mergeSort (fun a b c => gapKeyLe_trans a b c) gapKeyLe_total gaps
    exact hs.imp fun h => of_decide_eq_true h
  · intro e he hmem
    exact gapKey_lt_of_mem e hmem
  · intro e he hmem
    exact gapKey_eq_99_of_not_mem e hmem
  · simp [gapLines]
  · intro h
    rw [gapMoreLines, if_pos (by omega), hlen]
  · intro h
    rw [gapMoreLines, if_neg (by omega)]

theorem gap_section_sorted_capped_witness :
    gapMoreLines wGaps = ["  _...and " ++ toString (wGaps.length - 6) ++ " more_"]
    ∧ gapKey ("p2", { category := "Unknown", platforms := [] }) = 99 :=
  ⟨(gap_section_sorted_capped wGaps).2.2.2.2.2.2.1 (by decide),
   (gap_section_sorted_capped wGaps).2.2.2.1 ("p2", { category := "Unknown", platforms := [] })
     (by decide) (by decide)⟩

/-! ### prompt_map characterization -/

theorem lookup_singleton_ne (k k2 : String) (e : PromptEntry) (h : k ≠ k2) :
    (([(k2, e)] : List (String × PromptEntry)).lookup k) = none := by
  have hb : (k == k2) = false := beq_eq_false_iff_ne.mpr h
  simp [List.lookup_cons, hb]

theorem lookup_pmUpdate_self (key pname : String) (m : List (String × PromptEntry)) :
    (pmUpdate key pname m).lookup key =
      (m.lookup key).map fun e =>
        { category := e.category, platforms := e.platforms ++ [pname] } := by
  induction m with
  | nil => rfl
  | cons a t ih =>
      obtain ⟨k1, v1⟩ := a
      by_cases h : k1 = key
      · subst h
        simp [pmUpdate, List.lookup_cons]
      · have hb : (key == k1) = false := beq_eq_false_iff_ne.mpr (Ne.symm h)
        simp only [pmUpdate, List.map_cons, if_neg h, List.lookup_cons, hb, cond_false]
        exact ih

theorem lookup_pmUpdate_ne (key pname k : String) (m : List (String × PromptEntry))
    (h : k ≠ key) : (pmUpdate key pname m).lookup k = m.lookup k := by
  induction m with
  | nil => rfl
  | cons a t ih =>
      obtain ⟨k1, v1⟩ := a
      by_cases h1 : k1 = key
      · subst h1
        have hb : (k == k1) = false := beq_eq_false_iff_ne.mpr h
        simpa [pmUpdate, List.lookup_cons, hb] using ih
      · simp only [pmUpdate, List.map_cons, if_neg h1, List.lookup_cons]
        cases hb : k == k1
        · simp only [cond_false]
          exact ih
        · simp only [cond_true]

theorem pmInsert_eq (pname : String) (m : List (String × PromptEntry)) (r : Record) :
    pmInsert pname m r =
      if r.mentioned
      then pmUpdate r.prompt pname (if (m.lookup r.prompt).isSome then m
        else m ++ [(r.prompt, { category := r.category, platforms := [] })])
      else (if (m.lookup r.prompt).isSome then m
        else m ++ [(r.prompt, { category := r.category, platforms := [] })]) := rfl

theorem lookup_pmInsert_ne (pname : String) (m : List (String × PromptEntry)) (r : Record)
    (k : String) (h : k ≠ r.prompt) : (pmInsert pname m r).lookup k = m.lookup k := by
  rw [pmInsert_eq]
  have hM1 : (if (m.lookup r.prompt).isSome = true then m
      else m ++ [(r.prompt, ({ category := r.category, platforms := [] } : PromptEntry))]).lookup k
      = m.lookup k := by
    split
    · rfl
    · rw [List.lookup_append, lookup_singleton_ne _ _ _ h, Option.or_none]
  split
  · rw [lookup_pmUpdate_ne _ _ _ _ h]
    exact hM1
  · exact hM1

theorem lookup_pmInsert_self_none (pname : String) (m : List (String × PromptEntry))
    (r : Record) (h : m.lookup r.prompt = none) :
    (pmInsert pname m r).lookup r.prompt =
      some { category := r.category,
             platforms := if r.mentioned then [pname] else [] } := by
  rw [pmInsert_eq]
  have hc : ¬((m.lookup r.prompt).isSome = true) := by simp [h]
  rw [if_neg hc]
  have happ : (m ++ [(r.prompt, ({ category := r.category, platforms := [] } : PromptEntry))]).lookup r.prompt
      = some { category := r.category, platforms := [] } := by
    rw [List.lookup_append, h, Option.none_or]
    simp [List.lookup_cons]
  by_cases hm : r.mentioned = true
  · rw [if_pos hm, lookup_pmUpdate_self, happ, hm]
    simp
  · rw [if_neg hm, happ]
    rw [Bool.not_eq_true] at hm
    rw [hm]
    simp

theorem lookup_pmInsert_self_some (pname : String) (m : List (String × PromptEntry))
    (r : Record) (e : PromptEntry) (h : m.lookup r.prompt = some e) :
    (pmInsert pname m r).lookup r.prompt =
      some { category := e.category,
             platforms := e.platforms ++ if r.mentioned then [pname] else [] } := by
  rw [pmInsert_eq]
  have hc : (m.lookup r.prompt).isSome = true := by simp [h]
  rw [if_pos hc]
  by_cases hm : r.mentioned = true
  · rw [if_pos hm, lookup_pmUpdate_self, h, hm]
    simp
  · rw [if_neg hm, h]
    rw [Bool.not_eq_true] at hm
    rw [hm]
    simp

theorem keys_pmUpdate (key pname : String) (m : List (String × PromptEntry)) :
    (pmUpdate key pname m).map Prod.fst = m.map Prod.fst := by
  induction m with
  | nil => rfl
  | cons a t ih =>
      by_cases h : a.1 = key
      · simp only [pmUpdate, List.map_cons, if_pos h] at ih ⊢
        rw [ih]
      · simp only [pmUpdate, List.map_cons, if_neg h] at ih ⊢
        rw [ih]

theorem keys_pmInsert (pname : String) (m : List (String × PromptEntry)) (r : Record) :
    (pmInsert pname m r).map Prod.fst =
      if (m.lookup r.prompt).isSome then m.map Prod.fst
      else m.map Prod.fst ++ [r.prompt] := by
  rw [pmInsert_eq]
  by_cases hs : (m.lookup r.prompt).isSome = true
  · rw [if_pos hs, if_pos hs]
    split
    · rw [keys_pmUpdate]
    · rfl
  · rw [if_neg hs, if_neg hs]
    split
    · rw [keys_pmUpdate, List.map_append]
      rfl
    · rw [List.map_append]
      rfl

theorem pmFold_cons (pname : String) (m : List (String × PromptEntry)) (r : Record)
    (recs : List Record) :
    pmFold pname m (r :: recs) = pmFold pname (pmInsert pname m r) recs := rfl

theorem pmFold_append (pname : String) (m : List (String × PromptEntry))
    (l1 l2 : List Record) :
    pmFold pname m (l1 ++ l2) = pmFold pname (pmFold pname m l1) l2 := by
  simp [pmFold, List.foldl_append]

theorem lookup_pmFold_ne (pname : String) (m : List (String × PromptEntry))
    (recs : List Record) (k : String) (h : ∀ r ∈ recs, r.prompt ≠ k) :
    (pmFold pname m recs).lookup k = m.lookup k := by
  induction recs generalizing m with
  | nil => rfl
  | cons r t ih =>
      rw [pmFold_cons, ih _ fun r2 hr2 => h r2 (List.mem_cons_of_mem _ hr2),
        lookup_pmInsert_ne _ _ _ _ (Ne.symm (h r (List.mem_cons_self _ _)))]

theorem keys_pmFold_mem (pname : String) (m : List (String × PromptEntry))
    (recs : List Record) (h : ∀ r ∈ recs, r.prompt ∈ m.map Prod.fst) :
    (pmFold pname m recs).map Prod.fst = m.map Prod.fst := by
  induction recs generalizing m with
  | nil => rfl
  | cons r t ih =>
      have hsome : (m.lookup r.prompt).isSome := by
        rw [List.lookup_isSome_iff]
        rcases List.mem_map.mp (h r (List.mem_cons_self _ _)) with ⟨kv, hkv, hfst⟩
        exact ⟨kv, hkv, by simp [hfst]⟩
      have hkeys : (pmInsert pname m r).map Prod.fst = m.map Prod.fst := by
        rw [keys_pmInsert, if_pos hsome]
      have hrest : ∀ r2 ∈ t, r2.prompt ∈ (pmInsert pname m r).map Prod.fst := by
        intro r2 hr2
        rw [hkeys]
        exact h r2 (List.mem_cons_of_mem _ hr2)
      rw [pmFold_cons, ih _ hrest, hkeys]

theorem keys_pmFold_new (pname : String) (m : List (String × PromptEntry))
    (recs : List Record) (hnd : (recs.map Record.prompt).Nodup)
    (hdisj : ∀ r ∈ recs, r.prompt ∉ m.map Prod.fst) :
    (pmFold pname m recs).map Prod.fst = m.map Prod.fst ++ recs.map Record.prompt := by
  induction recs generalizing m with
  | nil => simp [pmFold]
  | cons r t ih =>
      have hnone : m.lookup r.prompt = none := by
        rw [List.lookup_eq_none_iff]
        intro kv hkv
        have hne : r.prompt ≠ kv.1 := by
          intro heq
          exact hdisj r (List.mem_cons_self _ _) (List.mem_map.mpr ⟨kv, hkv, heq.symm⟩)
        simp [hne]
      have hkeys : (pmInsert pname m r).map Prod.fst = m.map Prod.fst ++ [r.prompt] := by
        rw [keys_pmInsert, if_neg (by simp [hnone])]
      rw [List.map_cons] at hnd
      have hnotmem : r.prompt ∉ t.map Record.prompt := (List.nodup_cons.mp hnd).1
      have hdisj2 : ∀ r2 ∈ t, r2.prompt ∉ (pmInsert pname m r).map Prod.fst := by
        intro r2 hr2
        rw [hkeys]
        intro hmem
        rcases List.mem_append.mp hmem with hl | hr
        · exact hdisj r2 (List.mem_cons_of_mem _ hr2) hl
        · exact hnotmem ((List.mem_singleton.mp hr) ▸ List.mem_map.mpr ⟨r2, hr2, rfl⟩)
      rw [pmFold_cons, ih _ (List.nodup_cons.mp hnd).2 hdisj2, hkeys]
      simp

theorem runPlatform_prompts (resp : String → String) :
    (runPlatform resp).map Record.prompt = PROMPTS.map Prod.snd := by
  simp only [runPlatform, List.map_map]
  rfl

theorem PROMPTS_snd_nodup : (PROMPTS.map Prod.snd).Nodup := by decide

theorem mem_prompt_of_mem_runPlatform {resp : String → String} {r : Record}
    (hr : r ∈ runPlatform resp) : r.prompt ∈ PROMPTS.map Prod.snd := by
  obtain ⟨cp, hcp, rfl⟩ := mem_runPlatform hr
  exact List.mem_map.mpr ⟨cp, hcp, rfl⟩

theorem buildPromptMap_eq (query : String → String → String) :
    buildPromptMap (runPlatforms query) =
      pmFold "gemini"
        (pmFold "claude"
          (pmFold "chatgpt" [] (runPlatform (query "chatgpt")))
          (runPlatform (query "claude")))
        (runPlatform (query "gemini")) := rfl

theorem keys_buildPromptMap (query : String → String → String) :
    (buildPromptMap (runPlatforms query)).map Prod.fst = PROMPTS.map Prod.snd := by
  rw [buildPromptMap_eq]
  have h1 : (pmFold "chatgpt" [] (runPlatform (query "chatgpt"))).map Prod.fst =
      PROMPTS.map Prod.snd := by
    rw [keys_pmFold_new _ _ _ (by rw [runPlatform_prompts]; exact PROMPTS_snd_nodup)
      (by intro r hr; simp)]
    simp [runPlatform_prompts]
  have h2 : (pmFold "claude"
      (pmFold "chatgpt" [] (runPlatform (query "chatgpt")))
      (runPlatform (query "claude"))).map Prod.fst = PROMPTS.map Prod.snd := by
    rw [keys_pmFold_mem]
    · exact h1
    · intro r hr
      rw [h1]
      exact mem_prompt_of_mem_runPlatform hr
  rw [keys_pmFold_mem]
  · exact h2
  · intro r hr
    rw [h2]
    exact mem_prompt_of_mem_runPlatform hr

theorem prompts_split_not_mem {L1 L2 : List (String × String)} {cp : String × String}
    (hsplit : PROMPTS = L1 ++ cp :: L2) :
    cp.2 ∉ L1.map Prod.snd ∧ cp.2 ∉ L2.map Prod.snd := by
  have hnd := PROMPTS_snd_nodup
  rw [hsplit, List.map_append, List.map_cons] at hnd
  have hmid := List.nodup_middle.mp hnd
  have hnotin := (List.nodup_cons.mp hmid).1
  constructor
  · intro hmem
    exact hnotin (List.mem_append.mpr (Or.inl hmem))
  · intro hmem
    exact hnotin (List.mem_append.mpr (Or.inr hmem))

theorem lookup_pmFold_platform_none (pname : String) (resp : String → String)
    (m : List (String × PromptEntry)) {L1 L2 : List (String × String)}
    {cp : String × String} (hsplit : PROMPTS = L1 ++ cp :: L2)
    (hm : m.lookup cp.2 = none) :
    (pmFold pname m (runPlatform resp)).lookup cp.2 =
      some { category := cp.1,
             platforms := if (mkRecord cp.1 cp.2 (resp cp.2)).mentioned
               then [pname] else [] } := by
  obtain ⟨h1, h2⟩ := prompts_split_not_mem hsplit
  rw [runPlatform, hsplit, List.map_append, List.map_cons, pmFold_append, pmFold_cons,
    lookup_pmFold_ne]
  · have hinner : (pmFold pname m (L1.map fun cp2 => mkRecord cp2.1 cp2.2 (resp cp2.2))).lookup cp.2
        = none := by
      rw [lookup_pmFold_ne, hm]
      intro r hr
      rcases List.mem_map.mp hr with ⟨cp2, hcp2, rfl⟩
      intro heq
      exact h1 (List.mem_map.mpr ⟨cp2, hcp2, heq⟩)
    exact lookup_pmInsert_self_none pname _ (mkRecord cp.1 cp.2 (resp cp.2)) hinner
  · intro r hr
    rcases List.mem_map.mp hr with ⟨cp2, hcp2, rfl⟩
    intro heq
    exact h2 (List.mem_map.mpr ⟨cp2, hcp2, heq⟩)

theorem lookup_pmFold_platform_some (pname : String) (resp : String → String)
    (m : List (String × PromptEntry)) {L1 L2 : List (String × String)}
    {cp : String × String} (hsplit : PROMPTS = L1 ++ cp :: L2) (e : PromptEntry)
    (hm : m.lookup cp.2 = some e) :
    (pmFold pname m (runPlatform resp)).lookup cp.2 =
      some { category := e.category,
             platforms := e.platforms ++
               if (mkRecord cp.1 cp.2 (resp cp.2)).mentioned then [pname] else [] } := by
  obtain ⟨h1, h2⟩ := prompts_split_not_mem hsplit
  rw [runPlatform, hsplit, List.map_append, List.map_cons, pmFold_append, pmFold_cons,
    lookup_pmFold_ne]
  · have hinner : (pmFold pname m (L1.map fun cp2 => mkRecord cp2.1 cp2.2 (resp cp2.2))).lookup cp.2
        = some e := by
      rw [lookup_pmFold_ne, hm]
      intro r hr
      rcases List.mem_map.mp hr with ⟨cp2, hcp2, rfl⟩
      intro heq
      exact h1 (List.mem_map.mpr ⟨cp2, hcp2, heq⟩)
    exact lookup_pmInsert_self_some pname _ (mkRecord cp.1 cp.2 (resp cp.2)) e hinner
  · intro r hr
    rcases List.mem_map.mp hr with ⟨cp2, hcp2, rfl⟩
    intro heq
    exact h2 (List.mem_map.mpr ⟨cp2, hcp2, heq⟩)

theorem filter_platformNames (pred : String → Bool) :
    platformNames.filter pred =
      ((if pred "chatgpt" then ["chatgpt"] else []) ++
        (if pred "claude" then ["claude"] else [])) ++
      (if pred "gemini" then ["gemini"] else []) := by
  cases h1 : pred "chatgpt" <;> cases h2 : pred "claude" <;> cases h3 : pred "gemini" <;>
    simp [platformNames, List.filter, h1, h2, h3]

theorem lookup_buildPromptMap (query : String → String → String) (cp : String × String)
    (hcp : cp ∈ PROMPTS) :
    (buildPromptMap (runPlatforms query)).lookup cp.2 =
      some { category := cp.1,
             platforms := platformNames.filter fun n =>
               (mkRecord cp.1 cp.2 (query n cp.2)).mentioned } := by
  obtain ⟨L1, L2, hsplit⟩ := List.append_of_mem hcp
  have e1 := lookup_pmFold_platform_none "chatgpt" (query "chatgpt") [] hsplit rfl
  have e2 := lookup_pmFold_platform_some "claude" (query "claude") _ hsplit _ e1
  have e3 := lookup_pmFold_platform_some "gemini" (query "gemini") _ hsplit _ e2
  rw [buildPromptMap_eq, e3, filter_platformNames]

theorem lookup_of_mem_nodup_keys (m : List (String × PromptEntry))
    (hnd : (m.map Prod.fst).Nodup) (kv : String × PromptEntry) (h : kv ∈ m) :
    m.lookup kv.1 = some kv.2 := by
  induction m with
  | nil => cases h
  | cons a t ih =>
      rw [List.map_cons, List.nodup_cons] at hnd
      rcases List.mem_cons.mp h with rfl | h2
      · obtain ⟨k1, v1⟩ := kv
        simp [List.lookup_cons]
      · have hne : kv.1 ≠ a.1 := by
          intro heq
          exact hnd.1 (heq ▸ List.mem_map.mpr ⟨kv, h2, rfl⟩)
        obtain ⟨k1, v1⟩ := a
        have hb : (kv.1 == k1) = false := beq_eq_false_iff_ne.mpr hne
        rw [List.lookup_cons]
        simp only [hb, cond_false]
        exact ih hnd.2 h2

theorem mem_of_lookup_eq_some {m : List (String × PromptEntry)} {k : String}
    {e : PromptEntry} (h : m.lookup k = some e) : (k, e) ∈ m := by
  rcases List.lookup_eq_some_iff.mp h with ⟨l1, l2, heq, -⟩
  rw [heq]
  exact List.mem_append.mpr (Or.inr (List.mem_cons_self _ _))

/-- C3: in every run's summary, each catalog prompt lands in exactly one of
winning_prompts and gap_prompts — in winning_prompts exactly when some
platform's record for it is a mention, in gap_prompts exactly when none is —
and every key of either map is a catalog prompt. -/
theorem prompt_partition_winning_gap (week : String) (query : String → String → String)
    (store : List (String × Snapshot)) (p : String) (hp : p ∈ PROMPTS.map Prod.snd) :
    (p ∈ (run_tracker week query store).summary.winning_prompts.map Prod.fst
      ∨ p ∈ (run_tracker week query store).summary.gap_prompts.map Prod.fst)
    ∧ ¬(p ∈ (run_tracker week query store).summary.winning_prompts.map Prod.fst
        ∧ p ∈ (run_tracker week query store).summary.gap_prompts.map Prod.fst)
    ∧ (p ∈ (run_tracker week query store).summary.winning_prompts.map Prod.fst ↔
        ∃ pr ∈ (run_tracker week query store).platforms, ∃ r ∈ pr.2,
          r.prompt = p ∧ r.mentioned = true)
    ∧ (p ∈ (run_tracker week query store).summary.gap_prompts.map Prod.fst ↔
        ∀ pr ∈ (run_tracker week query store).platforms, ∀ r ∈ pr.2,
          r.prompt = p → r.mentioned = false)
    ∧ (∀ k : String,
        k ∈ (run_tracker week query store).summary.winning_prompts.map Prod.fst
          ∨ k ∈ (run_tracker week query store).summary.gap_prompts.map Prod.fst →
        k ∈ PROMPTS.map Prod.snd) := by
  obtain ⟨cp, hcp, rfl⟩ := List.mem_map.mp hp
  rw [run_tracker_winning, run_tracker_gaps, run_tracker_platforms]
  have hlk := lookup_buildPromptMap query cp hcp
  have hkeys := keys_buildPromptMap query
  have hnd : ((buildPromptMap (runPlatforms query)).map Prod.fst).Nodup := by
    rw [hkeys]
    exact PROMPTS_snd_nodup
  have hwin : cp.2 ∈ ((buildPromptMap (runPlatforms query)).filter
        fun kv => !kv.2.platforms.isEmpty).map Prod.fst ↔
      (platformNames.filter fun n => (mkRecord cp.1 cp.2 (query n cp.2)).mentioned) ≠ [] := by
    constructor
    · intro h
      rcases List.mem_map.mp h with ⟨kv, hkvf, hfst⟩
      rcases List.mem_filter.mp hkvf with ⟨hkvm, hpred⟩
      have hl : (buildPromptMap (runPlatforms query)).lookup cp.2 = some kv.2 := by
        rw [← hfst]
        exact lookup_of_mem_nodup_keys _ hnd kv hkvm
      have hkv2 := Option.some.inj (hl.symm.trans hlk)
      intro hnil
      rw [hkv2] at hpred
      rw [hnil] at hpred
      simp at hpred
    · intro hne
      refine List.mem_map.mpr ⟨_, List.mem_filter.mpr ⟨mem_of_lookup_eq_some hlk, ?_⟩, rfl⟩
      simpa using hne
  have hgap : cp.2 ∈ ((buildPromptMap (runPlatforms query)).filter
        fun kv => kv.2.platforms.isEmpty).map Prod.fst ↔
      (platformNames.filter fun n => (mkRecord cp.1 cp.2 (query n cp.2)).mentioned) = [] := by
    constructor
    · intro h
      rcases List.mem_map.mp h with ⟨kv, hkvf, hfst⟩
      rcases List.mem_filter.mp hkvf with ⟨hkvm, hpred⟩
      have hl : (buildPromptMap (runPlatforms query)).lookup cp.2 = some kv.2 := by
        rw [← hfst]
        exact lookup_of_mem_nodup_keys _ hnd kv hkvm
      have hkv2 := Option.some.inj (hl.symm.trans hlk)
      rw [hkv2] at hpred
      simpa using hpred
    · intro hnil
      refine List.mem_map.mpr ⟨_, List.mem_filter.mpr ⟨mem_of_lookup_eq_some hlk, ?_⟩, rfl⟩
      simpa using hnil
  have hex : (platformNames.filter fun n => (mkRecord cp.1 cp.2 (query n cp.2)).mentioned) ≠ []
      ↔ ∃ pr ∈ runPlatforms query, ∃ r ∈ pr.2, r.prompt = cp.2 ∧ r.mentioned = true := by
    constructor
    · intro hne
      rcases List.exists_mem_of_ne_nil _ hne with ⟨n, hn⟩
      rcases List.mem_filter.mp hn with ⟨hnmem, hpred⟩
      exact ⟨(n, runPlatform (query n)), List.mem_map.mpr ⟨n, hnmem, rfl⟩,
        mkRecord cp.1 cp.2 (query n cp.2), List.mem_map.mpr ⟨cp, hcp, rfl⟩, rfl, hpred⟩
    · rintro ⟨pr, hpr, r, hr, hrp, hrm⟩
      obtain ⟨name, hname, rfl⟩ := mem_runPlatforms hpr
      obtain ⟨cp2, hcp2, rfl⟩ := mem_runPlatform hr
      have hcpeq : cp2 = cp := List.inj_on_of_nodup_map PROMPTS_snd_nodup hcp2 hcp hrp
      rcases hcpeq with rfl
      intro hnil
      have hmemf : name ∈ platformNames.filter
          fun n => (mkRecord cp2.1 cp2.2 (query n cp2.2)).mentioned :=
        List.mem_filter.mpr ⟨hname, hrm⟩
      rw [hnil] at hmemf
      exact absurd hmemf (List.not_mem_nil _)
  have hall : (platformNames.filter fun n => (mkRecord cp.1 cp.2 (query n cp.2)).mentioned) = []
      ↔ ∀ pr ∈ runPlatforms query, ∀ r ∈ pr.2, r.prompt = cp.2 → r.mentioned = false := by
    constructor
    · intro hnil pr hpr r hr hrp
      obtain ⟨name, hname, rfl⟩ := mem_runPlatforms hpr
      obtain ⟨cp2, hcp2, rfl⟩ := mem_runPlatform hr
      have hcpeq : cp2 = cp := List.inj_on_of_nodup_map PROMPTS_snd_nodup hcp2 hcp hrp
      rcases hcpeq with rfl
      cases hM : (mkRecord cp2.1 cp2.2 (query name cp2.2)).mentioned
      · rfl
      · exfalso
        have hmemf : name ∈ platformNames.filter
            fun n => (mkRecord cp2.1 cp2.2 (query n cp2.2)).mentioned :=
          List.mem_filter.mpr ⟨hname, hM⟩
        rw [hnil] at hmemf
        exact absurd hmemf (List.not_mem_nil _)
    · intro hforall
      rw [List.filter_eq_nil_iff]
      intro n hn
      have := hforall (n, runPlatform (query n)) (List.mem_map.mpr ⟨n, hn, rfl⟩)
        (mkRecord cp.1 cp.2 (query n cp.2)) (List.mem_map.mpr ⟨cp, hcp, rfl⟩) rfl
      simp [this]
  refine ⟨?_, ?_, hwin.trans hex, hgap.trans hall, ?_⟩
  · by_cases hnil :
        (platformNames.filter fun n => (mkRecord cp.1 cp.2 (query n cp.2)).mentioned) = []
    · exact Or.inr (hgap.mpr hnil)
    · exact Or.inl (hwin.mpr hnil)
  · rintro ⟨hw, hg⟩
    exact (hwin.mp hw) (hgap.mp hg)
  · intro k hk
    have hmm : ∃ kv ∈ buildPromptMap (runPlatforms query), kv.1 = k := by
      rcases hk with hk | hk <;>
        (rcases List.mem_map.mp hk with ⟨kv, hkvf, hfst⟩
         exact ⟨kv, (List.mem_filter.mp hkvf).1, hfst⟩)
    rcases hmm with ⟨kv, hkvm, hfst⟩
    rw [← hkeys, ← hfst]
    exact List.mem_map.mpr ⟨kv, hkvm, rfl⟩

theorem prompt_partition_winning_gap_witness :
    "Who are the best vehicle upfitters for police departments?" ∈
        (run_tracker "2026-01-05" (fun _ _ => "x") []).summary.winning_prompts.map Prod.fst
      ∨ "Who are the best vehicle upfitters for police departments?" ∈
        (run_tracker "2026-01-05" (fun _ _ => "x") []).summary.gap_prompts.map Prod.fst :=
  (prompt_partition_winning_gap "2026-01-05" (fun _ _ => "x") []
    "Who are the best vehicle upfitters for police departments?" (by decide)).1

end Tracker
